import Mathlib

/-!
Shallow embedding of the ArduinoMultimeter firmware (two variants:
Resistance/Resistance.ino and the unnamed prototype file) and proofs about
its timing, sampling and dispatch behaviour.

Machine floats used for the millisecond accumulator are idealised as
rationals; tick counters and ADC samples are naturals with the 16-bit /
10-bit ranges handled explicitly where they matter.
-/

namespace ArduinoMultimeter

/-- MAX_SAMPLE: full scale of the 10-bit ADC (0..1023). -/
def MAX_SAMPLE : ℕ := 1023

/-- MAX_TICK_VALUE: maximum value of the 16-bit TCNT1 register (0xFFFF). -/
def MAX_TICK_VALUE : ℕ := 65535

/-- Hardware state touched by the timing / measurement code:
the float accumulator timer1_overflow (idealised as a rational), the
16-bit tick counter TCNT1, the clock-select register TCCR1B, and the
charge control pin of PORTB. -/
structure HW where
  timer1_overflow : ℚ
  tcnt1 : ℕ
  tccr1b : ℕ
  portb_charge : Bool
deriving DecidableEq

/-- initTimer1 (Resistance.ino:100-104): default TCCR1A, overflow
interrupt enable (register setup not modelled), and timer1_overflow = 0. -/
def initTimer1 (s : HW) : HW :=
  { s with timer1_overflow := 0 }

/-- startTimer1 (Resistance.ino:113-117): initTimer1, then
TCCR1B = (1 << CS11) | (1 << CS10) = 3 (prescaler 64) and TCNT1 = 0. -/
def startTimer1 (s : HW) : HW :=
  { initTimer1 s with tccr1b := 3, tcnt1 := 0 }

/-- stopTimer1 (Resistance.ino:126-130): TCCR1B = 0 (no clock),
timer1_overflow = 0, TCNT1 = 0. -/
def stopTimer1 (s : HW) : HW :=
  { s with tccr1b := 0, timer1_overflow := 0, tcnt1 := 0 }

/-- getMilliseconds (Resistance.ino:139-143, part_000:109-112):
timer1_overflow + TCNT1 / 250 (250 ticks = 1 millisecond). -/
def getMilliseconds (s : HW) : ℚ :=
  s.timer1_overflow + (s.tcnt1 : ℚ) / 250

/-- ISR (TIMER1_OVF_vect) of Resistance.ino:306-309:
timer1_overflow += (float)(0xFFFF) / 250.0f. -/
def isrOverflowResistanceIno (s : HW) : HW :=
  { s with timer1_overflow := s.timer1_overflow + (65535 : ℚ) / 250 }

/-- ISR (TIMER1_OVF_vect) of part_000:194-197:
timer1_overflow += (float)TCNT1 / 250. -/
def isrOverflowPart000 (s : HW) : HW :=
  { s with timer1_overflow := s.timer1_overflow + (s.tcnt1 : ℚ) / 250 }

/-- A timer state together with a pending-overflow-interrupt flag: the
hardware wrap of TCNT1 and the execution of the overflow handler are
separate events, with the flag recording an overflow whose handler has
not yet run. -/
structure OvfState where
  hw : HW
  pending : Bool

/-- Interleaving semantics of the running timer (Resistance.ino variant):
a tick either increments TCNT1 or wraps it from 0xFFFF to 0 raising the
overflow flag; the overflow handler runs at some later point, executing
the ISR body and clearing the flag. Reads do not change state, so a read
is just getMilliseconds of the current hw state. -/
inductive OvfStep : OvfState → OvfState → Prop where
  | tickWrap (s : OvfState) (h : s.hw.tcnt1 = 65535) :
      OvfStep s ⟨{ s.hw with tcnt1 := 0 }, true⟩
  | tick (s : OvfState) (h : s.hw.tcnt1 ≠ 65535) :
      OvfStep s ⟨{ s.hw with tcnt1 := s.hw.tcnt1 + 1 }, s.pending⟩
  | handler (s : OvfState) (h : s.pending = true) :
      OvfStep s ⟨isrOverflowResistanceIno s.hw, false⟩

/-- Atomic-overflow semantics: the overflow handler executes in the same
step as the wrap that raised it, so no read can fall between them. A
tick either increments TCNT1 or, at 0xFFFF, runs the Resistance.ino ISR
body and wraps to 0 in one step. -/
def tickAtomic (s : HW) : HW :=
  if s.tcnt1 = 65535 then { isrOverflowResistanceIno s with tcnt1 := 0 }
  else { s with tcnt1 := s.tcnt1 + 1 }

/-- C1: for every overflow event while the timer runs, the handler adds
exactly MAX_TICK_VALUE / TICKS_PER_MILLISECOND = 65535/250 ms to the
accumulator, independent of the tick counter's value when it runs. The
Resistance.ino handler satisfies this for every state; the part_000
handler instead adds TCNT1/250, which at the failing state TCNT1 = 0
(the value the counter holds right after wrapping) adds 0 ms rather
than the required 65535/250 ms. -/
theorem c1_overflow_handler_adds_full_range :
    (∀ s : HW, (isrOverflowResistanceIno s).timer1_overflow
        = s.timer1_overflow + (65535 : ℚ) / 250)
    ∧ (isrOverflowPart000 ⟨0, 0, 3, false⟩).timer1_overflow = 0
    ∧ (0 : ℚ) ≠ (65535 : ℚ) / 250 := by
  refine ⟨fun s => rfl, ?_, by norm_num⟩
  simp [isrOverflowPart000]

/-- One atomic tick never decreases the reading: an ordinary tick adds
1/250 ms; a wrap tick adds 65535/250 ms to the accumulator while the
counter contribution falls from 65535/250 to 0, leaving the reading
unchanged. -/
theorem getMilliseconds_le_tickAtomic (s : HW) :
    getMilliseconds s ≤ getMilliseconds (tickAtomic s) := by
  unfold tickAtomic
  by_cases h : s.tcnt1 = 65535
  · simp only [h, if_pos rfl, getMilliseconds, isrOverflowResistanceIno]
    norm_num
  · simp only [if_neg h, getMilliseconds]
    have : (s.tcnt1 : ℚ) / 250 ≤ ((s.tcnt1 + 1 : ℕ) : ℚ) / 250 := by
      apply div_le_div_of_nonneg_right _ (by norm_num)
      exact_mod_cast Nat.le_succ s.tcnt1
    linarith

/-- Iterating atomic ticks never decreases the reading. -/
theorem getMilliseconds_le_iterate (k : ℕ) (s : HW) :
    getMilliseconds s ≤ getMilliseconds (tickAtomic^[k] s) := by
  induction k with
  | zero => simp
  | succ n ih =>
      calc getMilliseconds s ≤ getMilliseconds (tickAtomic^[n] s) := ih
        _ ≤ getMilliseconds (tickAtomic (tickAtomic^[n] s)) :=
            getMilliseconds_le_tickAtomic _
        _ = getMilliseconds (tickAtomic^[n + 1] s) := by
            rw [Function.iterate_succ_apply']

/-- C2 counterexample: in the interleaving semantics where the wrap of
TCNT1 and the execution of the overflow handler are separate events, a
single legal step (the wrap, with the handler still pending) makes
getMilliseconds drop from 65535/250 to 0: read2 < read1 with no stop or
start in between, refuting the claim as stated. -/
theorem c2_monotonicity_counterexample :
    OvfStep ⟨⟨0, 65535, 3, false⟩, false⟩ ⟨⟨0, 0, 3, false⟩, true⟩
    ∧ getMilliseconds ⟨0, 0, 3, false⟩ < getMilliseconds ⟨0, 65535, 3, false⟩ := by
  constructor
  · exact OvfStep.tickWrap ⟨⟨0, 65535, 3, false⟩, false⟩ rfl
  · simp only [getMilliseconds]
    norm_num

/-- C2 amended: if every overflow handler executes atomically with the
wrap that raised it (the tickAtomic semantics, using the Resistance.ino
ISR body), then along any run of the timer two reads of getMilliseconds
taken m and n ticks after a common state, with m ≤ n and no intervening
stop or start, satisfy read1 ≤ read2. -/
theorem c2_monotonicity_atomic (s : HW) (m n : ℕ) (h : m ≤ n) :
    getMilliseconds (tickAtomic^[m] s) ≤ getMilliseconds (tickAtomic^[n] s) := by
  have hn : n - m + m = n := Nat.sub_add_cancel h
  have := getMilliseconds_le_iterate (n - m) (tickAtomic^[m] s)
  rwa [← Function.iterate_add_apply, hn] at this

/-- Witness for C2: concrete instantiation across one wrap step. -/
theorem c2_monotonicity_atomic_witness :
    1 ≤ 2 ∧ getMilliseconds (tickAtomic^[1] ⟨0, 65535, 3, false⟩)
      ≤ getMilliseconds (tickAtomic^[2] ⟨0, 65535, 3, false⟩) :=
  ⟨by decide, c2_monotonicity_atomic ⟨0, 65535, 3, false⟩ 1 2 (by decide)⟩

/-- Embedding of a busy-wait polling loop over a stream of successive
ADC samples, given as a finite list: pollUntil p xs is the index of the
sample at which the loop exits (the first sample whose exit condition p
holds), or none if the trace ends with the loop still spinning. -/
def pollUntil (p : ℕ → Bool) : List ℕ → Option ℕ
  | [] => none
  | x :: xs => if p x then some 0 else Option.map (· + 1) (pollUntil p xs)

/-- pollUntil finds exactly the first index whose sample satisfies the
exit condition: every earlier sample fails it. -/
theorem pollUntil_eq_some_iff (p : ℕ → Bool) :
    ∀ (xs : List ℕ) (i : ℕ), pollUntil p xs = some i ↔
      i < xs.length ∧ p (xs.getD i 0) = true ∧ ∀ j, j < i → p (xs.getD j 0) = false := by
  intro xs
  induction xs with
  | nil => intro i; simp [pollUntil]
  | cons x xs ih =>
      intro i
      by_cases hp : p x
      · cases i with
        | zero => simp [pollUntil, hp]
        | succ k =>
            simp only [pollUntil, if_pos hp]
            constructor
            · intro h; exact absurd h (by simp)
            · rintro ⟨-, -, hall⟩
              have := hall 0 (Nat.succ_pos k)
              simp [hp] at this
      · cases i with
        | zero =>
            simp only [pollUntil, if_neg hp]
            constructor
            · intro h
              rcases Option.map_eq_some'.mp h with ⟨k, -, hk⟩
              exact absurd hk (by omega)
            · rintro ⟨-, h0, -⟩
              simp only [List.getD_cons_zero] at h0
              exact absurd h0 (by simp [hp])
        | succ k =>
            simp only [pollUntil, if_neg hp]
            constructor
            · intro h
              rcases Option.map_eq_some'.mp h with ⟨k', hk', hkk⟩
              have hk : k' = k := by omega
              rw [hk] at hk'
              rcases (ih k).mp hk' with ⟨hlen, hex, hall⟩
              refine ⟨by simpa using Nat.succ_lt_succ hlen, by simpa using hex, ?_⟩
              intro j hj
              cases j with
              | zero => simpa using hp
              | succ j' =>
                  simpa using hall j' (by omega)
            · rintro ⟨hlen, hex, hall⟩
              have htail : pollUntil p xs = some k := by
                refine (ih k).mpr ⟨by simpa using hlen, by simpa using hex, ?_⟩
                intro j hj
                simpa using hall (j + 1) (by omega)
              simp [htail]

/-- Charge-phase loop of calculateCapacitance (Resistance.ino:233):
while (readADC(pin_capacitance) < 647) — the loop exits at the first
sample for which the continue condition s < 647 fails. -/
def chargeExitCapacitance (xs : List ℕ) : Option ℕ :=
  pollUntil (fun s => ! decide (s < 647)) xs

/-- Charge-phase loop of part_000's getTimeConstant (part_000:216):
while (readADC(0) < 645). -/
def chargeExitCalibration (xs : List ℕ) : Option ℕ :=
  pollUntil (fun s => ! decide (s < 645)) xs

/-- Charge-phase loop of calculateResistance (Resistance.ino:256):
while (1023 - readADC(pin_resistance) < 647). -/
def chargeExitResistance (xs : List ℕ) : Option ℕ :=
  pollUntil (fun s => ! decide (1023 - s < 647)) xs

/-- Discharge-phase loop of calculateCapacitance (Resistance.ino:228):
while (readADC(pin_capacitance) != 0) — exits at the first zero sample. -/
def dischargeExitCapacitance (xs : List ℕ) : Option ℕ :=
  pollUntil (fun s => s == 0) xs

/-- Discharge-phase loop of calculateResistance (Resistance.ino:251):
while (readADC(pin_resistance) != 0) — also exits at the first zero
sample, identical in form to the capacitance variant. -/
def dischargeExitResistance (xs : List ℕ) : Option ℕ :=
  pollUntil (fun s => s == 0) xs

/-- Modelled from the spec sentence for C4 (comparison definition only):
a resistance discharge loop that would poll until the complement
MAX_SAMPLE - sample reaches zero, as the claim describes. -/
def claimedDischargeExitResistance (xs : List ℕ) : Option ℕ :=
  pollUntil (fun s => (1023 - s) == 0) xs

/-- The threshold the claim C3 states: 0.632 × MAX_SAMPLE truncated. -/
def truncatedThreshold : ℕ := 632 * MAX_SAMPLE / 1000

/-- C3 counterexample: the truncated 63.2%-of-full-scale threshold is
646, but on the trace [646, 700] the calculateCapacitance charge loop
runs past the sample 646 (which already meets the claimed threshold) and
exits only at index 1; and on [645, 700] part_000's calibration charge
loop exits at index 0 on the sample 645, which is below the claimed
threshold. So the loops do not exit at exactly the first crossing of
0.632 × MAX_SAMPLE truncated. -/
theorem c3_threshold_counterexample :
    truncatedThreshold = 646
    ∧ chargeExitCapacitance [646, 700] = some 1 ∧ truncatedThreshold ≤ 646
    ∧ chargeExitCalibration [645, 700] = some 0 ∧ 645 < truncatedThreshold := by
  decide

/-- C3 amended: the charge-phase loops terminate at exactly the first
sample reaching the hard-coded constants of the source — 647 in
calculateCapacitance and 645 in part_000's getTimeConstant — not at the
truncated 63.2% value 646: no earlier sample and no later sample ends
either loop. -/
theorem c3_charge_exit_first_threshold :
    (∀ (xs : List ℕ) (i : ℕ), chargeExitCapacitance xs = some i ↔
      i < xs.length ∧ 647 ≤ xs.getD i 0 ∧ ∀ j, j < i → xs.getD j 0 < 647)
    ∧ (∀ (xs : List ℕ) (i : ℕ), chargeExitCalibration xs = some i ↔
      i < xs.length ∧ 645 ≤ xs.getD i 0 ∧ ∀ j, j < i → xs.getD j 0 < 645) := by
  refine ⟨fun xs i => ?_, fun xs i => ?_⟩
  · rw [chargeExitCapacitance, pollUntil_eq_some_iff]
    simp [Nat.not_lt]
  · rw [chargeExitCalibration, pollUntil_eq_some_iff]
    simp [Nat.not_lt]

/-- Witness for C3's amended characterization at a concrete trace. -/
theorem c3_charge_exit_first_threshold_witness :
    chargeExitCapacitance [100, 650] = some 1
    ∧ chargeExitCalibration [644, 645] = some 1 :=
  ⟨(c3_charge_exit_first_threshold.1 [100, 650] 1).mpr (by decide),
   (c3_charge_exit_first_threshold.2 [644, 645] 1).mpr (by decide)⟩

/-- C4 counterexample: on the trace [0, 1023] the calculateResistance
discharge loop exits at index 0 — the first sample equal to zero — while
the loop the claim describes (poll until MAX_SAMPLE minus the sample
reaches zero) would exit only at index 1; the resistance discharge phase
does not poll on the complement. -/
theorem c4_discharge_counterexample :
    dischargeExitResistance [0, 1023] = some 0
    ∧ claimedDischargeExitResistance [0, 1023] = some 1 := by
  decide

/-- C4 amended: both variants' discharge phases poll until the sample
itself reaches zero (the two loops are the same function of the sample
trace); the complement appears instead in the resistance variant's
charge phase, which exits at exactly the first sample whose complement
1023 - sample reaches 647. -/
theorem c4_discharge_same_complement_in_charge :
    (∀ xs : List ℕ, dischargeExitResistance xs = dischargeExitCapacitance xs)
    ∧ (∀ (xs : List ℕ) (i : ℕ), chargeExitResistance xs = some i ↔
        i < xs.length ∧ 647 ≤ 1023 - xs.getD i 0 ∧ ∀ j, j < i → 1023 - xs.getD j 0 < 647) := by
  refine ⟨fun xs => rfl, fun xs i => ?_⟩
  rw [chargeExitResistance, pollUntil_eq_some_iff]
  simp [Nat.not_lt]

/-- Witness for C4's amended statement at concrete traces. -/
theorem c4_discharge_same_complement_in_charge_witness :
    dischargeExitResistance [3, 0] = dischargeExitCapacitance [3, 0]
    ∧ chargeExitResistance [500, 300] = some 1 :=
  ⟨c4_discharge_same_complement_in_charge.1 [3, 0],
   (c4_discharge_same_complement_in_charge.2 [500, 300] 1).mpr (by decide)⟩

/-- initADC (Resistance.ino:69-72, part_000:40-43): ADMUX = (1 << REFS0),
with REFS0 the bit 6 of ADMUX, so ADMUX starts at 64 with all four MUX
channel-select bits (bits 3:0) clear. -/
def ADMUX_init : ℕ := 64

/-- Channel-select update performed by readADC (Resistance.ino:86,
part_000:57): ADMUX |= pin — the requested pin is OR-ed into ADMUX
without first clearing the previously selected MUX bits. -/
def readADC_admux (admux pin : ℕ) : ℕ := admux ||| pin

/-- The channel a conversion actually uses: the MUX3:0 bits of ADMUX. -/
def muxChannel (admux : ℕ) : ℕ := admux % 16

/-- C5: after sample(1) (pin_resistance) the MUX bits hold 1; a
subsequent sample(0) (pin_capacitance) ORs 0 into ADMUX, leaving the
MUX bits at 1, so the conversion runs with channel 1 still selected —
the selection is influenced by which channel was selected before. -/
theorem c5_channel_selection_sticky :
    muxChannel (readADC_admux ADMUX_init 1) = 1
    ∧ muxChannel (readADC_admux (readADC_admux ADMUX_init 1) 0) = 1
    ∧ (1 : ℕ) ≠ 0 := by
  decide

/-- calculateCapacitance (Resistance.ino:225-239) as a state transformer.
The ADC sample streams of the discharge and charge phases are supplied
by the environment as finite lists; accAtRead and tcntAtRead are the
values the running timer's registers hold at the moment getMilliseconds
is called after the threshold crossing (the timer advances and its ISR
fires while the loops poll, which the routine itself does not control).
Returns none if a polling loop never exits within its trace, otherwise
the returned float (tc / 10, in microfarads) and the final hardware
state. -/
def calculateCapacitance (s : HW) (dis ch : List ℕ) (accAtRead : ℚ)
    (tcntAtRead : ℕ) : Option (ℚ × HW) :=
  let s0 : HW := { s with portb_charge := false }
  match dischargeExitCapacitance dis with
  | none => none
  | some _ =>
    let s1 : HW := startTimer1 s0
    let s2 : HW := { s1 with portb_charge := true }
    match chargeExitCapacitance ch with
    | none => none
    | some _ =>
      let s3 : HW := { s2 with timer1_overflow := accAtRead, tcnt1 := tcntAtRead }
      let tc : ℚ := getMilliseconds s3
      let s4 : HW := { s3 with portb_charge := false }
      let s5 : HW := stopTimer1 s4
      some (tc / 10, s5)

/-- calculateResistance (Resistance.ino:248-262) as a state transformer,
in the same environment convention as calculateCapacitance; returns
tc / 100 in kilo-ohms. -/
def calculateResistance (s : HW) (dis ch : List ℕ) (accAtRead : ℚ)
    (tcntAtRead : ℕ) : Option (ℚ × HW) :=
  let s0 : HW := { s with portb_charge := false }
  match dischargeExitResistance dis with
  | none => none
  | some _ =>
    let s1 : HW := startTimer1 s0
    let s2 : HW := { s1 with portb_charge := true }
    match chargeExitResistance ch with
    | none => none
    | some _ =>
      let s3 : HW := { s2 with timer1_overflow := accAtRead, tcnt1 := tcntAtRead }
      let tc : ℚ := getMilliseconds s3
      let s4 : HW := { s3 with portb_charge := false }
      let s5 : HW := stopTimer1 s4
      some (tc / 100, s5)

/-- C6: whenever a transient measurement returns normally,
calculateCapacitance returns tau / 10 (microfarads) and
calculateResistance returns tau / 100 (kilo-ohms), where tau is exactly
the elapsed time getMilliseconds reads from the tracker at the threshold
crossing, acc + tcnt / 250. -/
theorem c6_conversion_scale (s : HW) (dis ch : List ℕ) (acc : ℚ) (tcnt : ℕ)
    (v : ℚ) (s2 : HW) :
    (calculateCapacitance s dis ch acc tcnt = some (v, s2) →
      v = (acc + (tcnt : ℚ) / 250) / 10)
    ∧ (calculateResistance s dis ch acc tcnt = some (v, s2) →
      v = (acc + (tcnt : ℚ) / 250) / 100) := by
  constructor
  · intro h
    unfold calculateCapacitance at h
    split at h
    · exact absurd h (by simp)
    · split at h
      · exact absurd h (by simp)
      · simp only [Option.some.injEq, Prod.mk.injEq] at h
        rcases h with ⟨hv, -⟩
        rw [← hv]
        simp [getMilliseconds]
  · intro h
    unfold calculateResistance at h
    split at h
    · exact absurd h (by simp)
    · split at h
      · exact absurd h (by simp)
      · simp only [Option.some.injEq, Prod.mk.injEq] at h
        rcases h with ⟨hv, -⟩
        rw [← hv]
        simp [getMilliseconds]

/-- Witness for C6: a concrete capacitance run with injected elapsed
time 5 ms returns 1/2 microfarad. -/
theorem c6_conversion_scale_witness :
    calculateCapacitance ⟨0, 0, 0, false⟩ [0] [650] 5 0
      = some (1/2, ⟨0, 0, 0, false⟩)
    ∧ ((1 : ℚ)/2) = ((5 : ℚ) + ((0 : ℕ) : ℚ) / 250) / 10 := by
  have h : calculateCapacitance ⟨0, 0, 0, false⟩ [0] [650] 5 0
      = some (1/2, ⟨0, 0, 0, false⟩) := by
    norm_num [calculateCapacitance, dischargeExitCapacitance,
      chargeExitCapacitance, pollUntil, startTimer1, initTimer1, stopTimer1,
      getMilliseconds]
  exact ⟨h, (c6_conversion_scale ⟨0, 0, 0, false⟩ [0] [650] 5 0 (1/2)
    ⟨0, 0, 0, false⟩).1 h⟩

/-- C10: whenever calculateCapacitance or calculateResistance returns
normally, the final hardware state has the charge line low, the timer
clock stopped (TCCR1B = 0), and both the overflow accumulator and TCNT1
equal to zero — the idle pre-measurement configuration. -/
theorem c10_restores_idle_state (s : HW) (dis ch : List ℕ) (acc : ℚ)
    (tcnt : ℕ) (v : ℚ) (s2 : HW)
    (h : calculateCapacitance s dis ch acc tcnt = some (v, s2)
      ∨ calculateResistance s dis ch acc tcnt = some (v, s2)) :
    s2.portb_charge = false ∧ s2.tccr1b = 0
      ∧ s2.timer1_overflow = 0 ∧ s2.tcnt1 = 0 := by
  rcases h with h | h
  · unfold calculateCapacitance at h
    split at h
    · exact absurd h (by simp)
    · split at h
      · exact absurd h (by simp)
      · simp only [Option.some.injEq, Prod.mk.injEq] at h
        rcases h with ⟨-, hs⟩
        rw [← hs]
        simp [stopTimer1]
  · unfold calculateResistance at h
    split at h
    · exact absurd h (by simp)
    · split at h
      · exact absurd h (by simp)
      · simp only [Option.some.injEq, Prod.mk.injEq] at h
        rcases h with ⟨-, hs⟩
        rw [← hs]
        simp [stopTimer1]

/-- Witness for C10: a concrete resistance run started from a dirty
state (timer running, charge line high) ends in the idle state. -/
theorem c10_restores_idle_state_witness :
    (⟨0, 0, 0, false⟩ : HW).portb_charge = false
    ∧ (⟨0, 0, 0, false⟩ : HW).tccr1b = 0
    ∧ (⟨0, 0, 0, false⟩ : HW).timer1_overflow = 0
    ∧ (⟨0, 0, 0, false⟩ : HW).tcnt1 = 0 :=
  c10_restores_idle_state ⟨1, 2, 3, true⟩ [0] [300] 7 10 (44/625)
    ⟨0, 0, 0, false⟩ (Or.inr (by
      norm_num [calculateResistance, dischargeExitResistance,
        chargeExitResistance, pollUntil, startTimer1, initTimer1, stopTimer1,
        getMilliseconds]))

/-- The measurement routines the main switch can invoke. -/
inductive Routine where
  | capacitanceMeter
  | resistanceMeter
  | voltMeter
  | ammeter
deriving DecidableEq

/-- Observable outcome of main's mode switch: which measurement routines
it invokes (in order) and whether it prints the "Invalid" message. -/
structure MainOutcome where
  invoked : List Routine
  invalidMsg : Bool
deriving DecidableEq

/-- The switch(mode) of main (Resistance.ino:330-371): case 3 runs
calculateCapacitance, case 2 runs calculateResistance, case 1 reads the
ADC for voltage, case 4 reads the ADC for current, and the default
branch prints "Invalid" and invokes nothing. -/
def mainDispatch (mode : ℕ) : MainOutcome :=
  if mode = 3 then ⟨[Routine.capacitanceMeter], false⟩
  else if mode = 2 then ⟨[Routine.resistanceMeter], false⟩
  else if mode = 1 then ⟨[Routine.voltMeter], false⟩
  else if mode = 4 then ⟨[Routine.ammeter], false⟩
  else ⟨[], true⟩

/-- C7: every mode code outside {1, 2, 3, 4} (in particular 9) produces
the invalid outcome with no routine invoked, and every recognized code
invokes exactly one measurement routine with no invalid message. -/
theorem c7_dispatch_invalid_or_unique (m : ℕ) :
    ((m ≠ 1 ∧ m ≠ 2 ∧ m ≠ 3 ∧ m ≠ 4) → mainDispatch m = ⟨[], true⟩)
    ∧ ((m = 1 ∨ m = 2 ∨ m = 3 ∨ m = 4) →
      (mainDispatch m).invoked.length = 1 ∧ (mainDispatch m).invalidMsg = false) := by
  constructor
  · rintro ⟨h1, h2, h3, h4⟩
    simp [mainDispatch, h1, h2, h3, h4]
  · rintro (rfl | rfl | rfl | rfl) <;> decide

/-- Witness for C7 at the spec's scenario mode code 9 and at mode 3. -/
theorem c7_dispatch_witness :
    mainDispatch 9 = ⟨[], true⟩
    ∧ (mainDispatch 3).invoked.length = 1 ∧ (mainDispatch 3).invalidMsg = false :=
  ⟨(c7_dispatch_invalid_or_unique 9).1 (by decide),
   (c7_dispatch_invalid_or_unique 3).2 (by decide)⟩

/-- Volts per ADC count: the literal 0.00488f of Resistance.ino:353,
idealised as a rational. -/
def VOLTS_PER_COUNT : ℚ := 488 / 100000

/-- Milliamps per ADC count: the literal 0.488f of Resistance.ino:362. -/
def MILLIAMPS_PER_COUNT : ℚ := 488 / 1000

/-- Voltage conversion of main's MODE_VOLTAGE case (Resistance.ino:353):
value = readADC(pin_voltage) * 0.00488f. -/
def toVoltage (sample : ℕ) : ℚ := (sample : ℚ) * VOLTS_PER_COUNT

/-- Current conversion of main's MODE_CURRENT case (Resistance.ino:362):
value = readADC(pin_current) * 0.488f. -/
def toCurrent (sample : ℕ) : ℚ := (sample : ℚ) * MILLIAMPS_PER_COUNT

/-- C8: the direct-reading conversions are the pure linear maps
sample * VOLTS_PER_COUNT and sample * MILLIAMPS_PER_COUNT; toVoltage 0
is 0 and toVoltage is strictly increasing over [0, MAX_SAMPLE]. -/
theorem c8_direct_reading_linear :
    (∀ s : ℕ, toVoltage s = (s : ℚ) * VOLTS_PER_COUNT)
    ∧ (∀ s : ℕ, toCurrent s = (s : ℚ) * MILLIAMPS_PER_COUNT)
    ∧ toVoltage 0 = 0
    ∧ (∀ a b : ℕ, a < b → b ≤ MAX_SAMPLE → toVoltage a < toVoltage b) := by
  refine ⟨fun s => rfl, fun s => rfl, by simp [toVoltage], fun a b hab hb => ?_⟩
  have h : (a : ℚ) < (b : ℚ) := by exact_mod_cast hab
  have hpos : (0 : ℚ) < VOLTS_PER_COUNT := by norm_num [VOLTS_PER_COUNT]
  exact mul_lt_mul_of_pos_right h hpos

/-- Witness for C8 across the whole sample domain's endpoints. -/
theorem c8_direct_reading_linear_witness :
    0 < 1023 ∧ 1023 ≤ MAX_SAMPLE ∧ toVoltage 0 < toVoltage 1023 :=
  ⟨by decide, by decide, c8_direct_reading_linear.2.2.2 0 1023 (by decide) (by decide)⟩

end ArduinoMultimeter
